import Mathlib

/-!
Verification development for the `soccer_stats` crawler
(`soccer_stats/spiders/footy_stats_spider.py` and collaborators).

The parsers of the spider are embedded shallowly: a page is modelled by the
results of the structural (XPath) queries the parser runs against it, a
parser is a pure function from a page and its carried-over context to the
ordered list of events it yields (emitted records and follow-up requests),
and a generator that raises midway is modelled by the events yielded before
the exception together with the pending error.  The `hashlib.md5` digest is
implemented in full (RFC 1321) over byte lists, with 32-bit words as `Nat`
reduced mod 2^32.
-/

namespace SoccerStats

/-! MD5 (RFC 1321), words as `Nat` mod 2^32 -/

def m32 (n : Nat) : Nat := n % 4294967296

def bnot32 (x : Nat) : Nat := 4294967295 - m32 x

def rotl32 (x s : Nat) : Nat := m32 (m32 x * 2 ^ s + m32 x / 2 ^ (32 - s))

def md5K : List Nat :=
  [0xd76aa478, 0xe8c7b756, 0x242070db, 0xc1bdceee,
   0xf57c0faf, 0x4787c62a, 0xa8304613, 0xfd469501,
   0x698098d8, 0x8b44f7af, 0xffff5bb1, 0x895cd7be,
   0x6b901122, 0xfd987193, 0xa679438e, 0x49b40821,
   0xf61e2562, 0xc040b340, 0x265e5a51, 0xe9b6c7aa,
   0xd62f105d, 0x02441453, 0xd8a1e681, 0xe7d3fbc8,
   0x21e1cde6, 0xc33707d6, 0xf4d50d87, 0x455a14ed,
   0xa9e3e905, 0xfcefa3f8, 0x676f02d9, 0x8d2a4c8a,
   0xfffa3942, 0x8771f681, 0x6d9d6122, 0xfde5380c,
   0xa4beea44, 0x4bdecfa9, 0xf6bb4b60, 0xbebfbc70,
   0x289b7ec6, 0xeaa127fa, 0xd4ef3085, 0x04881d05,
   0xd9d4d039, 0xe6db99e5, 0x1fa27cf8, 0xc4ac5665,
   0xf4292244, 0x432aff97, 0xab9423a7, 0xfc93a039,
   0x655b59c3, 0x8f0ccc92, 0xffeff47d, 0x85845dd1,
   0x6fa87e4f, 0xfe2ce6e0, 0xa3014314, 0x4e0811a1,
   0xf7537e82, 0xbd3af235, 0x2ad7d2bb, 0xeb86d391]

def md5S : List Nat :=
  [7, 12, 17, 22, 7, 12, 17, 22, 7, 12, 17, 22, 7, 12, 17, 22,
   5, 9, 14, 20, 5, 9, 14, 20, 5, 9, 14, 20, 5, 9, 14, 20,
   4, 11, 16, 23, 4, 11, 16, 23, 4, 11, 16, 23, 4, 11, 16, 23,
   6, 10, 15, 21, 6, 10, 15, 21, 6, 10, 15, 21, 6, 10, 15, 21]

def md5F (i b c d : Nat) : Nat :=
  if i < 16 then Nat.lor (Nat.land b c) (Nat.land (bnot32 b) d)
  else if i < 32 then Nat.lor (Nat.land d b) (Nat.land (bnot32 d) c)
  else if i < 48 then Nat.xor b (Nat.xor c d)
  else Nat.xor c (Nat.lor b (bnot32 d))

def md5G (i : Nat) : Nat :=
  if i < 16 then i
  else if i < 32 then (5 * i + 1) % 16
  else if i < 48 then (3 * i + 5) % 16
  else (7 * i) % 16

/-- One of the 64 MD5 rounds applied to the state `(a, b, c, d)` with the
sixteen message words `m` of the current block. -/
def md5Round (m : List Nat) (i : Nat) : Nat × Nat × Nat × Nat → Nat × Nat × Nat × Nat
  | (a, b, c, d) =>
    let f := md5F i b c d
    let g := md5G i
    let rotated := rotl32 (a + f + md5K.getD i 0 + m.getD g 0) (md5S.getD i 0)
    (d, m32 (b + rotated), b, c)

/-- Little-endian decoding of a block of bytes into 32-bit words. -/
def toWords : List Nat → List Nat
  | b0 :: b1 :: b2 :: b3 :: rest =>
      (b0 % 256 + 256 * (b1 % 256) + 65536 * (b2 % 256) + 16777216 * (b3 % 256)) :: toWords rest
  | _ => []

def md5ProcessBlock (st : Nat × Nat × Nat × Nat) (m : List Nat) : Nat × Nat × Nat × Nat :=
  match st, (List.range 64).foldl (fun acc i => md5Round m i acc) st with
  | (a0, b0, c0, d0), (a, b, c, d) => (m32 (a0 + a), m32 (b0 + b), m32 (c0 + c), m32 (d0 + d))

/-- The eight little-endian bytes of the 64-bit message bit length. -/
def le64 (n : Nat) : List Nat :=
  [n % 256, n / 256 % 256, n / 65536 % 256, n / 16777216 % 256,
   n / 4294967296 % 256, n / 1099511627776 % 256,
   n / 281474976710656 % 256, n / 72057594037927936 % 256]

/-- MD5 padding: a `0x80` byte, zeros up to 56 mod 64, then the bit length. -/
def md5pad (msg : List Nat) : List Nat :=
  msg ++ 128 :: List.replicate ((120 - (msg.length + 1) % 64) % 64) 0 ++ le64 (8 * msg.length)

/-- Consume the padded message 64 bytes at a time; `fuel` bounds the number
of blocks. -/
def md5Loop : Nat → Nat × Nat × Nat × Nat → List Nat → Nat × Nat × Nat × Nat
  | 0, st, _ => st
  | _, st, [] => st
  | fuel + 1, st, bs => md5Loop fuel (md5ProcessBlock st (toWords (bs.take 64))) (bs.drop 64)

def md5Digest (bytes : List Nat) : Nat × Nat × Nat × Nat :=
  let padded := md5pad bytes
  md5Loop (padded.length / 64) (0x67452301, 0xefcdab89, 0x98badcfe, 0x10325476) padded

def hexChar (n : Nat) : Char := "0123456789abcdef".data.getD n (Char.ofNat 48)

def byteHex (b : Nat) : List Char := [hexChar (b % 256 / 16), hexChar (b % 16)]

def wordLEBytes (w : Nat) : List Nat := [w % 256, w / 256 % 256, w / 65536 % 256, w / 16777216 % 256]

/-- Hex digest as returned by hexdigest in hashlib: the 32 lowercase hex
characters, little-endian within each state word. -/
def md5hexdigest (bytes : List Nat) : String :=
  let st := md5Digest bytes
  String.mk
    (((wordLEBytes st.1 ++ wordLEBytes st.2.1 ++ wordLEBytes st.2.2.1 ++ wordLEBytes st.2.2.2).map
        byteHex).flatten)

/-! Python string formation feeding the digest -/

/-- UTF-8 encoding of one code point (Python `str.encode()` per character). -/
def utf8Char (c : Char) : List Nat :=
  let n := c.toNat
  if n < 128 then [n]
  else if n < 2048 then [192 + n / 64, 128 + n % 64]
  else if n < 65536 then [224 + n / 4096, 128 + n / 64 % 64, 128 + n % 64]
  else [240 + n / 262144, 128 + n / 4096 % 64, 128 + n / 64 % 64, 128 + n % 64]

/-- Python `str.encode()` (UTF-8 bytes). -/
def pyEncode (s : String) : List Nat := (s.data.map utf8Char).flatten

/-- Escaping of a single character inside a Python `repr` using quote
character `q`. -/
def pyEscapeChar (q c : Char) : List Char :=
  if c = Char.ofNat 92 then [Char.ofNat 92, Char.ofNat 92]
  else if c = q then [Char.ofNat 92, q]
  else if c = Char.ofNat 10 then [Char.ofNat 92, 'n']
  else if c = Char.ofNat 13 then [Char.ofNat 92, 'r']
  else if c = Char.ofNat 9 then [Char.ofNat 92, 't']
  else if c.toNat < 32 ∨ c.toNat = 127 then
    [Char.ofNat 92, 'x', hexChar (c.toNat / 16), hexChar (c.toNat % 16)]
  else [c]

/-- Python `repr` of a `str`: single-quoted unless the string holds a single
quote and no double quote. -/
def pyRepr (s : String) : String :=
  let q := if s.data.contains (Char.ofNat 39) ∧ ¬ s.data.contains (Char.ofNat 34)
    then Char.ofNat 34 else Char.ofNat 39
  String.mk (q :: (s.data.map (pyEscapeChar q)).flatten ++ [q])

/-- Python `str` of a list of strings: `[repr x1, repr x2, ...]` joined with
a comma and a space inside square brackets. -/
def pyStrList (xs : List String) : String :=
  "[" ++ String.intercalate ", " (xs.map pyRepr) ++ "]"

/-- Digest of the UTF-8 encoding of the Python string form of a list of
string fields: the expression shared by `parse_season` and `parse_match`. -/
def fieldsDigest (fields : List String) : String :=
  md5hexdigest (pyEncode (pyStrList fields))

/-- League hash, from line 157 of the spider: the digest of the string form
of the two-element list of the loaded title and season field values. -/
def leagueHashOf (title season : String) : String := fieldsDigest [title, season]

/-- Match hash, from lines 261 to 268 of the spider: the digest of the
string form of the four-element list of the loaded league hash, timestamp,
home team and away team field values. -/
def matchHashOf (league_hash timestamp home_team away_team : String) : String :=
  fieldsDigest [league_hash, timestamp, home_team, away_team]

/-! Item loading

The record schemas live in `soccer_stats.items`, a module of this repository
that is not part of the sources at hand; the loader normalization below is
therefore modelled from the spec rather than transcribed. -/

/-- Python `str.strip()`: drop leading and trailing whitespace. -/
def pyStrip (s : String) : String :=
  String.mk (((s.data.dropWhile Char.isWhitespace).reverse.dropWhile Char.isWhitespace).reverse)

/-- Modelled from the spec: the missing `soccer_stats.items` module declares
per-field normalization "trim whitespace, take-first-of-many".  Each value
collected for a field is stripped and the first non-empty survivor becomes
the value of the field (the `TakeFirst` output processor, which skips empty
strings); when nothing survives the field is absent from the loaded item,
and reading an absent field from a Scrapy item raises `KeyError`. -/
def loadField (vs : List String) : Option String :=
  (vs.map pyStrip).find? (fun v => v != "")

/-- The loader method add_value skips a Python None, so an absent context
value contributes nothing to the field. -/
def optValues : Option String → List String
  | none => []
  | some v => [v]

/-! Items -/

structure League where
  country : Option String := none
  title : Option String := none
  nation : Option String := none
  division : Option String := none
  league_type : Option String := none
  teams_count : Option String := none
  season : Option String := none
  all_matches_count : Option String := none
  image_url : Option String := none
  hash : Option String := none
  blocked : Option Bool := none
deriving DecidableEq, Repr

structure Match where
  league_hash : Option String := none
  timestamp : Option String := none
  home_team : Option String := none
  away_team : Option String := none
  stadium : Option String := none
  home_result : Option String := none
  away_result : Option String := none
  hash : Option String := none
deriving DecidableEq, Repr

structure PostMatchStatistics where
  match_hash : Option String := none
  possession : Option String := none
  shots : Option String := none
  cards : Option String := none
  corners : Option String := none
  fouls : Option String := none
  offsides : Option String := none
deriving DecidableEq, Repr

/-! Pages and selectors -/

/-- A selected element, seen through its `.attrib` dictionary. -/
structure Element where
  attribs : List (String × String)
deriving DecidableEq, Repr

/-- Dictionary lookup on `.attrib`; `none` models the key being absent (a
direct subscript on it raises `KeyError`). -/
def Element.attr (e : Element) (k : String) : Option String :=
  (e.attribs.find? (fun kv => kv.fst == k)).map Prod.snd

/-- The outcome of running a Python generator to exhaustion: the events it
yielded in order, and the exception (if any) that ended it early. -/
structure GenResult (α : Type) where
  events : List α
  error : Option String
deriving DecidableEq, Repr

/-! XPath expressions, transcribed literally from the spider -/

def countryGroupXPath : String := "//div[@class=\"pt2e\"]"

def leagueLinksXPath : String := "div/table/tr/td/a/@href"

def titleXPath : String :=
  "//div[@id=\"teamSummary\"]/h1[contains(@class, \"teamName\")]/text()"

def nationXPath : String :=
  "//div[@class=\"league-details\"]/div[@class=\"detail\"]/div[contains(., \"Nation\")]/following-sibling::div/a/text()"

def divisionXPath : String :=
  "//div[@class=\"league-details\"]/div[@class=\"detail\"]/div[contains(., \"Division\")]/following-sibling::div/text()"

def leagueTypeXPath : String :=
  "//div[@class=\"league-details\"]/div[@class=\"detail\"]/div[contains(., \"Type\")]/following-sibling::div/text()"

def teamsCountXPath : String :=
  "//div[@class=\"league-details\"]/div[@class=\"detail\"]/div[contains(., \"Teams\")]/following-sibling::div/text()"

def seasonXPath : String :=
  "//div[@class=\"league-details\"]/div[@class=\"detail season\"]/div[contains(., \"Season\")]/following-sibling::div/text()"

def allMatchesCountXPath : String :=
  "//div[@class=\"league-details\"]/div[@class=\"detail season\"]/div[contains(., \"Matches\")]/following-sibling::div/text()"

def imageUrlXPath : String := "//div[@id=\"teamSummary\"]/img/@src"

def matchesAnchorXPath : String :=
  "//div[@id=\"teamSummary\"]/ul[contains(@class, \"secondary-nav\")]/li[contains(@class, \"middle\")]/a"

def matchLinksXPath : String :=
  "//table[contains(@class, \"matches-table\")]/tr/td[contains(@class, \"link\")]/a/@href"

def timestampXPath : String := "//p[@data-time]/@data-time"

def homeTeamXPath : String :=
  "//span[@itemprop=\"homeTeam\"]/span[@itemprop=\"name\"]/@content"

def awayTeamXPath : String :=
  "//span[@itemprop=\"awayTeam\"]/span[@itemprop=\"name\"]/@content"

def stadiumXPath : String := "//small/span[@itemprop=\"name\"]/text()"

def homeResultXPath : String :=
  "//div[contains(@class, \"h2h-final-score\")]/div[@class=\"widget-content\"]/h2/text()"

def awayResultXPath : String :=
  "//div[contains(@class, \"h2h-final-score\")]/div[@class=\"widget-content\"]/h2/text()"

def statsPanelXPath : String := "//div[@class=\"w100 cf ac\"]"

def possessionXPath : String := "//span[contains(@class, \"possession\")]/text()"

def shotsXPath : String :=
  "//div[@class=\"w100 m0Auto\"]/div/div[contains(text(), \"Shots\")]/following-sibling::div[contains(@class, \"bbox\")]/span/text()"

def cardsXPath : String :=
  "//div[@class=\"w100 m0Auto\"]/div/div[contains(text(), \"Cards\")]/following-sibling::div[contains(@class, \"bbox\")]/span/text()"

def cornersXPath : String :=
  "//div[@class=\"w100 m0Auto\"]/div/div[contains(text(), \"Corners\")]/following-sibling::div[contains(@class, \"bbox\")]/span/text()"

def foulsXPath : String :=
  "//div[@class=\"w100 m0Auto\"]/div/div[contains(text(), \"Fouls\")]/following-sibling::div[contains(@class, \"bbox\")]/span/text()"

def offsidesXPath : String :=
  "//div[@class=\"w100 m0Auto\"]/div/div[contains(text(), \"Offsides\")]/following-sibling::div[contains(@class, \"bbox\")]/span/text()"

/-- Url construction of make_url: the base `https://footystats.org` joined
to the relative path by a slash. -/
def makeUrl (path : String) : String := "https://footystats.org" ++ "/" ++ path

def ajaxLeagueUrl : String := makeUrl "ajax_league.php"

/-! The leagues-index parser -/

/-- One country group selector of the leagues index: its attribute
dictionary and the league hrefs listed by the relative query
`div/table/tr/td/a/@href` on it. -/
structure CountrySelector where
  attribs : List (String × String)
  leagueUrls : List String
deriving DecidableEq, Repr

def CountrySelector.attr (s : CountrySelector) (k : String) : Option String :=
  (s.attribs.find? (fun kv => kv.fst == k)).map Prod.snd

/-- A follow request for a league page, tagged with the country name it
carries forward. -/
structure FollowRequest where
  url : String
  country : String
deriving DecidableEq, Repr

/-- Leagues-index parser: for each country selector, read the id attribute
(raising `KeyError` when it is absent) and yield one follow request per
league href, tagged with that country. -/
def parse_leagues : List CountrySelector → GenResult FollowRequest
  | [] => ⟨[], none⟩
  | sel :: rest =>
    match sel.attr "id" with
    | none => ⟨[], some "KeyError"⟩
    | some country =>
      let r := parse_leagues rest
      ⟨sel.leagueUrls.map (fun u => FollowRequest.mk u country) ++ r.events, r.error⟩

/-! The season parser -/

/-- A season-detail page: the text/attribute results of each whole-page
structural query, and the element list matched by `matchesAnchorXPath`. -/
structure SeasonPage where
  query : String → List String
  matchesAnchors : List Element

inductive SeasonEvent
  | item (l : League)
  | formRequest (url : String) (formdata : List (String × String)) (league_hash : String)
  | follow (url : String) (league_hash : String)
deriving DecidableEq, Repr

/-- The `ItemLoader` block of `parse_season` (lines 99–156): one
`add_value`/`add_xpath` per field, then `load_item()`. -/
def loadLeague (p : SeasonPage) (country : Option String) : League :=
  { country := loadField (optValues country)
    title := loadField (p.query titleXPath)
    nation := loadField (p.query nationXPath)
    division := loadField (p.query divisionXPath)
    league_type := loadField (p.query leagueTypeXPath)
    teams_count := loadField (p.query teamsCountXPath)
    season := loadField (p.query seasonXPath)
    all_matches_count := loadField (p.query allMatchesCountXPath)
    image_url := loadField (p.query imageUrlXPath)
    hash := none
    blocked := none }

/-- First href value of the matches selector list: the get call on the
relative attribute query returns the first href found among the matched
elements. -/
def matchesHref (p : SeasonPage) : Option String :=
  (p.matchesAnchors.filterMap (fun e => e.attr "href")).head?

/-- Season parser: load the League, set its hash field from the loaded
title and season (raising `KeyError` before any yield when either field is
absent), yield the league, then branch on the matches link: the sentinel
href gives a form POST built from the data attributes of the anchor, a falsy
href gives a second yield of the league with blocked set to true, and any
other href gives a direct follow.  Each yield snapshots the item as it
stands. -/
def parse_season (p : SeasonPage) (country : Option String) : GenResult SeasonEvent :=
  let loaded := loadLeague p country
  match loaded.title, loaded.season with
  | some t, some s =>
    let h := leagueHashOf t s
    let league : League := { loaded with hash := some h }
    match matchesHref p with
    | some href =>
      if href = "#" then
        match p.matchesAnchors.head? with
        | some a =>
          match a.attr "data-hash", a.attr "data-zzz", a.attr "data-z" with
          | some dh, some dz, some dc =>
            ⟨[SeasonEvent.item league,
              SeasonEvent.formRequest ajaxLeagueUrl [("hash", dh), ("zzz", dz), ("cur", dc)] h],
             none⟩
          | _, _, _ => ⟨[SeasonEvent.item league], some "KeyError"⟩
        | none => ⟨[SeasonEvent.item league], some "KeyError"⟩
      else if href = "" then
        ⟨[SeasonEvent.item league, SeasonEvent.item { league with blocked := some true }], none⟩
      else
        ⟨[SeasonEvent.item league, SeasonEvent.follow href h], none⟩
    | none =>
      ⟨[SeasonEvent.item league, SeasonEvent.item { league with blocked := some true }], none⟩
  | _, _ => ⟨[], some "KeyError"⟩

/-! The matches-list parser -/

/-- A matches-list page, again seen through its structural queries. -/
structure MatchesPage where
  query : String → List String

/-- A JS-rendered request for one match-detail page, carrying the league
hash context. -/
structure MatchRequest where
  url : String
  league_hash : Option String
deriving DecidableEq, Repr

/-- Matches-list parser: one JS-rendered request per match href, each
carrying the `league_hash` context through unchanged. -/
def parse_matches (p : MatchesPage) (league_hash : Option String) : List MatchRequest :=
  (p.query matchLinksXPath).map (fun m => MatchRequest.mk (makeUrl m) league_hash)

/-! The match parser -/

/-- A match-detail page seen through its structural queries; an element
query such as the statistics panel check reports its raw matches, and the
`if response.xpath(...)` test is truthiness of that list. -/
structure MatchPage where
  query : String → List String

inductive MatchEvent
  | matchItem (m : Match)
  | statsItem (s : PostMatchStatistics)
deriving DecidableEq, Repr

/-- The `ItemLoader` block of `parse_match` (lines 224–259). -/
def loadMatch (p : MatchPage) (league_hash : Option String) : Match :=
  { league_hash := loadField (optValues league_hash)
    timestamp := loadField (p.query timestampXPath)
    home_team := loadField (p.query homeTeamXPath)
    away_team := loadField (p.query awayTeamXPath)
    stadium := loadField (p.query stadiumXPath)
    home_result := loadField (p.query homeResultXPath)
    away_result := loadField (p.query awayResultXPath)
    hash := none }

/-- The statistics `ItemLoader` block of `parse_match` (lines 274–308). -/
def loadStatistics (p : MatchPage) (mh : String) : PostMatchStatistics :=
  { match_hash := loadField [mh]
    possession := loadField (p.query possessionXPath)
    shots := loadField (p.query shotsXPath)
    cards := loadField (p.query cardsXPath)
    corners := loadField (p.query cornersXPath)
    fouls := loadField (p.query foulsXPath)
    offsides := loadField (p.query offsidesXPath) }

/-- Match parser: load the Match, set its hash field from the four loaded
fields league hash, timestamp, home team and away team (raising `KeyError`
before any yield when one is absent), yield the match, then yield a
PostMatchStatistics record exactly when the statistics panel query matches
something. -/
def parse_match (p : MatchPage) (league_hash : Option String) : GenResult MatchEvent :=
  let loaded := loadMatch p league_hash
  match loaded.league_hash, loaded.timestamp, loaded.home_team, loaded.away_team with
  | some lh, some ts, some ht, some aw =>
    let h := matchHashOf lh ts ht aw
    let m : Match := { loaded with hash := some h }
    if p.query statsPanelXPath ≠ [] then
      ⟨[MatchEvent.matchItem m, MatchEvent.statsItem (loadStatistics p h)], none⟩
    else
      ⟨[MatchEvent.matchItem m], none⟩
  | _, _, _, _ => ⟨[], some "KeyError"⟩

/-! Concrete pages and records used by witnesses and counterexamples -/

def seasonPageA : SeasonPage :=
  ⟨fun q => if q = titleXPath then ["Premier League"]
    else if q = seasonXPath then ["2020/2021"] else [],
   [⟨[("href", "#"), ("data-hash", "abc123"), ("data-zzz", "zz1"), ("data-z", "cc1")]⟩]⟩

def leagueA : League :=
  { country := some "England", title := some "Premier League", season := some "2020/2021",
    hash := some (leagueHashOf "Premier League" "2020/2021") }

def seasonPageB : SeasonPage :=
  ⟨fun q => if q = titleXPath then ["Serie A"]
    else if q = seasonXPath then ["2019/2020"] else [],
   [⟨[("data-hash", "xh")]⟩]⟩

def leagueB : League :=
  { title := some "Serie A", season := some "2019/2020",
    hash := some (leagueHashOf "Serie A" "2019/2020") }

def emptySeasonPage : SeasonPage := ⟨fun _ => [], []⟩

def seasonPageC : SeasonPage :=
  ⟨fun _ => [],
   [⟨[("href", "#"), ("data-hash", "abc123"), ("data-zzz", "zz1"), ("data-z", "cc1")]⟩]⟩

def matchPageA : MatchPage :=
  ⟨fun q => if q = timestampXPath then ["1600000000"]
    else if q = homeTeamXPath then ["Arsenal"]
    else if q = awayTeamXPath then ["Chelsea"] else []⟩

def matchA : Match :=
  { league_hash := some "abcdef123", timestamp := some "1600000000",
    home_team := some "Arsenal", away_team := some "Chelsea",
    hash := some (matchHashOf "abcdef123" "1600000000" "Arsenal" "Chelsea") }

def matchPageB : MatchPage :=
  ⟨fun q => if q = timestampXPath then ["1600000000"]
    else if q = homeTeamXPath then ["Arsenal"]
    else if q = awayTeamXPath then ["Chelsea"]
    else if q = statsPanelXPath then ["panel"] else []⟩

def emptyMatchPage : MatchPage := ⟨fun _ => []⟩

/-- Boolean test selecting emitted League records among season-parser
events. -/
def isLeagueItem : SeasonEvent → Bool
  | SeasonEvent.item _ => true
  | _ => false

/-! Supporting lemmas: a hex digest survives loader normalization -/

lemma hexChar_not_whitespace (n : Nat) : ¬ (hexChar n).isWhitespace := by
  unfold hexChar
  rcases Nat.lt_or_ge n 16 with h | h
  · interval_cases n <;> decide
  · rw [List.getD_eq_default _ _ (by exact h)]
    decide

lemma byteHex_not_whitespace (b : Nat) : ∀ ch ∈ byteHex b, ¬ ch.isWhitespace := by
  intro ch hch
  rcases List.mem_pair.mp hch with rfl | rfl <;> exact hexChar_not_whitespace _

lemma flatten_byteHex_not_whitespace (l : List Nat) :
    ∀ ch ∈ (l.map byteHex).flatten, ¬ ch.isWhitespace := by
  intro ch hch
  rcases List.mem_flatten.mp hch with ⟨chunk, hchunk, hmem⟩
  rcases List.mem_map.mp hchunk with ⟨b, _, rfl⟩
  exact byteHex_not_whitespace b ch hmem

lemma md5hexdigest_chars (bytes : List Nat) :
    ∀ ch ∈ (md5hexdigest bytes).data, ¬ ch.isWhitespace := by
  unfold md5hexdigest
  exact flatten_byteHex_not_whitespace _

lemma md5hexdigest_length (bytes : List Nat) : (md5hexdigest bytes).data.length = 32 := rfl

lemma md5hexdigest_ne_empty (bytes : List Nat) : md5hexdigest bytes ≠ "" := by
  intro h
  have h32 := md5hexdigest_length bytes
  rw [h] at h32
  simp at h32

lemma dropWhile_ws_eq_self (l : List Char) (h : ∀ c ∈ l, ¬ c.isWhitespace) :
    l.dropWhile Char.isWhitespace = l := by
  cases l with
  | nil => rfl
  | cons a t => exact List.dropWhile_cons_of_neg (by simpa using h a (List.mem_cons_self a t))

lemma pyStrip_eq_self (s : String) (h : ∀ c ∈ s.data, ¬ c.isWhitespace) : pyStrip s = s := by
  obtain ⟨data⟩ := s
  have h2 : ∀ c ∈ data.reverse, ¬ c.isWhitespace := fun c hc => h c (List.mem_reverse.mp hc)
  unfold pyStrip
  rw [show (String.mk data).data = data from rfl, dropWhile_ws_eq_self data h,
    dropWhile_ws_eq_self data.reverse h2, List.reverse_reverse]

lemma loadField_singleton (s : String) (h1 : pyStrip s = s) (h2 : s ≠ "") :
    loadField [s] = some s := by
  unfold loadField
  simp [h1, h2]

/-- A hex digest carried as context is reproduced verbatim by the loader:
it is non-empty and holds no whitespace for the strip to remove. -/
lemma loadField_digest (bytes : List Nat) :
    loadField [md5hexdigest bytes] = some (md5hexdigest bytes) :=
  loadField_singleton _ (pyStrip_eq_self _ (md5hexdigest_chars bytes)) (md5hexdigest_ne_empty bytes)

lemma loadField_leagueHash (t s : String) :
    loadField [leagueHashOf t s] = some (leagueHashOf t s) := loadField_digest _

lemma parse_season_of_href_none (p : SeasonPage) (c : Option String) (t s : String)
    (ht : (loadLeague p c).title = some t) (hs : (loadLeague p c).season = some s)
    (hh : matchesHref p = none) :
    parse_season p c =
      ⟨[SeasonEvent.item { loadLeague p c with hash := some (leagueHashOf t s) },
        SeasonEvent.item
          { loadLeague p c with hash := some (leagueHashOf t s), blocked := some true }],
       none⟩ := by
  simp only [parse_season, ht, hs, hh]

lemma parse_season_of_sentinel (p : SeasonPage) (c : Option String) (t s dh dz dc : String)
    (a : Element)
    (ht : (loadLeague p c).title = some t) (hs : (loadLeague p c).season = some s)
    (hh : matchesHref p = some "#") (ha : p.matchesAnchors.head? = some a)
    (a1 : a.attr "data-hash" = some dh) (a2 : a.attr "data-zzz" = some dz)
    (a3 : a.attr "data-z" = some dc) :
    parse_season p c =
      ⟨[SeasonEvent.item { loadLeague p c with hash := some (leagueHashOf t s) },
        SeasonEvent.formRequest ajaxLeagueUrl [("hash", dh), ("zzz", dz), ("cur", dc)]
          (leagueHashOf t s)],
       none⟩ := by
  simp only [parse_season, ht, hs, hh, ha, a1, a2, a3]
  simp

lemma parse_season_of_follow (p : SeasonPage) (c : Option String) (t s u : String)
    (ht : (loadLeague p c).title = some t) (hs : (loadLeague p c).season = some s)
    (hh : matchesHref p = some u) (h1 : u ≠ "#") (h2 : u ≠ "") :
    parse_season p c =
      ⟨[SeasonEvent.item { loadLeague p c with hash := some (leagueHashOf t s) },
        SeasonEvent.follow u (leagueHashOf t s)],
       none⟩ := by
  simp only [parse_season, ht, hs, hh]
  rw [if_neg h1, if_neg h2]

lemma parse_season_of_missing (p : SeasonPage) (c : Option String)
    (h : (loadLeague p c).title = none ∨ (loadLeague p c).season = none) :
    parse_season p c = ⟨[], some "KeyError"⟩ := by
  rcases h with h | h
  · simp only [parse_season, h]
  · rcases ht : (loadLeague p c).title with _ | t <;> simp only [parse_season, ht, h]

lemma parse_season_shape (p : SeasonPage) (c : Option String) (t s : String)
    (ht : (loadLeague p c).title = some t) (hs : (loadLeague p c).season = some s) :
    ∃ rest, (parse_season p c).events =
        SeasonEvent.item { loadLeague p c with hash := some (leagueHashOf t s) } :: rest ∧
      ∀ e ∈ rest,
        e = SeasonEvent.item
              { loadLeague p c with hash := some (leagueHashOf t s), blocked := some true } ∨
        (∃ fd, e = SeasonEvent.formRequest ajaxLeagueUrl fd (leagueHashOf t s)) ∨
        (∃ u, e = SeasonEvent.follow u (leagueHashOf t s)) := by
  rcases hh : matchesHref p with _ | href
  · refine ⟨_, by rw [parse_season_of_href_none p c t s ht hs hh], ?_⟩
    intro e he
    rcases List.mem_singleton.mp he with rfl
    exact Or.inl rfl
  · by_cases hsharp : href = "#"
    · subst hsharp
      rcases ha : p.matchesAnchors.head? with _ | a
      · refine ⟨[], ?_, by simp⟩
        simp only [parse_season, ht, hs, hh, ha]
        simp
      · rcases a1 : a.attr "data-hash" with _ | dh
        · refine ⟨[], ?_, by simp⟩
          simp only [parse_season, ht, hs, hh, ha, a1]
          simp
        · rcases a2 : a.attr "data-zzz" with _ | dz
          · refine ⟨[], ?_, by simp⟩
            simp only [parse_season, ht, hs, hh, ha, a1, a2]
            simp
          · rcases a3 : a.attr "data-z" with _ | dc
            · refine ⟨[], ?_, by simp⟩
              simp only [parse_season, ht, hs, hh, ha, a1, a2, a3]
              simp
            · refine ⟨_, by rw [parse_season_of_sentinel p c t s dh dz dc a ht hs hh ha a1 a2 a3], ?_⟩
              intro e he
              rcases List.mem_singleton.mp he with rfl
              exact Or.inr (Or.inl ⟨_, rfl⟩)
    · by_cases hempty : href = ""
      · subst hempty
        refine ⟨[SeasonEvent.item
          { loadLeague p c with hash := some (leagueHashOf t s), blocked := some true }], ?_, ?_⟩
        · simp only [parse_season, ht, hs, hh]
          simp
        · intro e he
          rcases List.mem_singleton.mp he with rfl
          exact Or.inl rfl
      · refine ⟨_, by rw [parse_season_of_follow p c t s href ht hs hh hsharp hempty], ?_⟩
        intro e he
        rcases List.mem_singleton.mp he with rfl
        exact Or.inr (Or.inr ⟨_, rfl⟩)

lemma parse_match_of_missing (q : MatchPage) (lh : Option String)
    (h : (loadMatch q lh).league_hash = none ∨ (loadMatch q lh).timestamp = none ∨
      (loadMatch q lh).home_team = none ∨ (loadMatch q lh).away_team = none) :
    parse_match q lh = ⟨[], some "KeyError"⟩ := by
  rcases h with h | h | h | h
  · simp only [parse_match, h]
  · rcases h1 : (loadMatch q lh).league_hash with _ | v1 <;> simp only [parse_match, h1, h]
  · rcases h1 : (loadMatch q lh).league_hash with _ | v1 <;>
      rcases h2 : (loadMatch q lh).timestamp with _ | v2 <;>
      simp only [parse_match, h1, h2, h]
  · rcases h1 : (loadMatch q lh).league_hash with _ | v1 <;>
      rcases h2 : (loadMatch q lh).timestamp with _ | v2 <;>
      rcases h3 : (loadMatch q lh).home_team with _ | v3 <;>
      simp only [parse_match, h1, h2, h3, h]

lemma parse_match_of_loaded (q : MatchPage) (lh : Option String) (v1 v2 v3 v4 : String)
    (h1 : (loadMatch q lh).league_hash = some v1) (h2 : (loadMatch q lh).timestamp = some v2)
    (h3 : (loadMatch q lh).home_team = some v3) (h4 : (loadMatch q lh).away_team = some v4) :
    parse_match q lh =
      ⟨MatchEvent.matchItem { loadMatch q lh with hash := some (matchHashOf v1 v2 v3 v4) } ::
          (if q.query statsPanelXPath = [] then []
           else [MatchEvent.statsItem (loadStatistics q (matchHashOf v1 v2 v3 v4))]),
        none⟩ := by
  simp only [parse_match, h1, h2, h3, h4]
  by_cases hq : q.query statsPanelXPath = []
  · rw [if_neg (fun hcontra => hcontra hq), if_pos hq]
  · rw [if_pos hq, if_neg hq]

set_option maxRecDepth 100000

/-- Claim C1: every League record emitted by `parse_season` stores in `hash` the
digest of the ordered pair of its own `title` and `season` field values, so
recomputing the digest from those two stored fields reproduces it. -/
theorem C1_league_hash_recompute (p : SeasonPage) (c : Option String) (l : League)
    (hmem : SeasonEvent.item l ∈ (parse_season p c).events) :
    ∃ t s, l.title = some t ∧ l.season = some s ∧ l.hash = some (leagueHashOf t s) := by
  rcases ht : (loadLeague p c).title with _ | t
  · rw [parse_season_of_missing p c (Or.inl ht)] at hmem
    simp at hmem
  rcases hs : (loadLeague p c).season with _ | s
  · rw [parse_season_of_missing p c (Or.inr hs)] at hmem
    simp at hmem
  obtain ⟨rest, hev, hrest⟩ := parse_season_shape p c t s ht hs
  rw [hev] at hmem
  rcases List.mem_cons.mp hmem with heq | hmem2
  · injection heq with h
    subst h
    exact ⟨t, s, ht, hs, rfl⟩
  · rcases hrest _ hmem2 with heq | ⟨fd, heq⟩ | ⟨u, heq⟩
    · injection heq with h
      subst h
      exact ⟨t, s, ht, hs, rfl⟩
    · simp at heq
    · simp at heq

theorem C1_witness :
    SeasonEvent.item leagueA ∈ (parse_season seasonPageA (some "England")).events ∧
    (∃ t s, leagueA.title = some t ∧ leagueA.season = some s ∧
      leagueA.hash = some (leagueHashOf t s)) :=
  ⟨by decide, C1_league_hash_recompute seasonPageA (some "England") leagueA (by decide)⟩

/-- Claim C2: every Match record emitted by `parse_match` stores in `hash` the
digest of the ordered tuple of its own `league_hash`, `timestamp`,
`home_team` and `away_team` field values. -/
theorem C2_match_hash_recompute (q : MatchPage) (lh : Option String) (m : Match)
    (hmem : MatchEvent.matchItem m ∈ (parse_match q lh).events) :
    ∃ v1 v2 v3 v4, m.league_hash = some v1 ∧ m.timestamp = some v2 ∧
      m.home_team = some v3 ∧ m.away_team = some v4 ∧
      m.hash = some (matchHashOf v1 v2 v3 v4) := by
  rcases h1 : (loadMatch q lh).league_hash with _ | v1
  · rw [parse_match_of_missing q lh (Or.inl h1)] at hmem
    simp at hmem
  rcases h2 : (loadMatch q lh).timestamp with _ | v2
  · rw [parse_match_of_missing q lh (Or.inr (Or.inl h2))] at hmem
    simp at hmem
  rcases h3 : (loadMatch q lh).home_team with _ | v3
  · rw [parse_match_of_missing q lh (Or.inr (Or.inr (Or.inl h3)))] at hmem
    simp at hmem
  rcases h4 : (loadMatch q lh).away_team with _ | v4
  · rw [parse_match_of_missing q lh (Or.inr (Or.inr (Or.inr h4)))] at hmem
    simp at hmem
  rw [parse_match_of_loaded q lh v1 v2 v3 v4 h1 h2 h3 h4] at hmem
  rcases List.mem_cons.mp hmem with heq | hmem2
  · injection heq with h
    subst h
    exact ⟨v1, v2, v3, v4, h1, h2, h3, h4, rfl⟩
  · by_cases hq : q.query statsPanelXPath = [] <;> simp [hq] at hmem2

theorem C2_witness :
    MatchEvent.matchItem matchA ∈ (parse_match matchPageA (some "abcdef123")).events ∧
    (∃ v1 v2 v3 v4, matchA.league_hash = some v1 ∧ matchA.timestamp = some v2 ∧
      matchA.home_team = some v3 ∧ matchA.away_team = some v4 ∧
      matchA.hash = some (matchHashOf v1 v2 v3 v4)) :=
  ⟨by decide, C2_match_hash_recompute matchPageA (some "abcdef123") matchA (by decide)⟩

/-- Claim C3, as amended: on a season page whose title and season fields
load successfully and whose matches link exposes no href, the parser emits
the League twice — first with `blocked` unset, then the same record with
`blocked = true` — and issues no follow-up request. -/
theorem C3_blocked_double_emission (p : SeasonPage) (c : Option String) (t s : String)
    (ht : (loadLeague p c).title = some t) (hs : (loadLeague p c).season = some s)
    (hh : matchesHref p = none) :
    parse_season p c =
      ⟨[SeasonEvent.item { loadLeague p c with hash := some (leagueHashOf t s) },
        SeasonEvent.item
          { loadLeague p c with hash := some (leagueHashOf t s), blocked := some true }],
       none⟩ ∧
    ({ loadLeague p c with hash := some (leagueHashOf t s) } : League).blocked = none :=
  ⟨parse_season_of_href_none p c t s ht hs hh, rfl⟩

/-- Claim C3 counterexample: a no-href season page yields two League item events,
not one, and the first of them has `blocked` unset. -/
theorem C3_counterexample :
    (parse_season seasonPageB none).events.countP isLeagueItem = 2 ∧
    (parse_season seasonPageB none).events.head? = some (SeasonEvent.item leagueB) ∧
    leagueB.blocked = none := by decide

theorem C3_witness :
    matchesHref seasonPageB = none ∧
    (parse_season seasonPageB none =
        ⟨[SeasonEvent.item
            { loadLeague seasonPageB none with
                hash := some (leagueHashOf "Serie A" "2019/2020") },
          SeasonEvent.item
            { loadLeague seasonPageB none with
                hash := some (leagueHashOf "Serie A" "2019/2020"), blocked := some true }],
         none⟩ ∧
      ({ loadLeague seasonPageB none with
          hash := some (leagueHashOf "Serie A" "2019/2020") } : League).blocked = none) :=
  ⟨by decide,
   C3_blocked_double_emission seasonPageB none "Serie A" "2019/2020"
     (by decide) (by decide) (by decide)⟩

/-- Claim C4 counterexample: on a season page where the digest inputs are absent,
the parser emits nothing and raises instead of computing the digest. -/
theorem C4_counterexample :
    (parse_season emptySeasonPage none).events = [] ∧
    (parse_season emptySeasonPage none).error.isSome = true := by decide

/-- Claim C4, as amended: the digest is computed and the record emitted whenever all
digest-input fields are present in the loaded item — whatever their values —
but a digest-input field that is entirely absent makes the parser raise
`KeyError` and emit nothing. -/
theorem C4_hash_totality :
    (∀ (p : SeasonPage) (c : Option String) (t s : String),
        (loadLeague p c).title = some t → (loadLeague p c).season = some s →
        (parse_season p c).events.head? =
          some (SeasonEvent.item { loadLeague p c with hash := some (leagueHashOf t s) })) ∧
    (∀ (p : SeasonPage) (c : Option String),
        (loadLeague p c).title = none ∨ (loadLeague p c).season = none →
        parse_season p c = ⟨[], some "KeyError"⟩) ∧
    (∀ (q : MatchPage) (lh : Option String) (v1 v2 v3 v4 : String),
        (loadMatch q lh).league_hash = some v1 → (loadMatch q lh).timestamp = some v2 →
        (loadMatch q lh).home_team = some v3 → (loadMatch q lh).away_team = some v4 →
        (parse_match q lh).error = none ∧
        (parse_match q lh).events.head? =
          some (MatchEvent.matchItem
            { loadMatch q lh with hash := some (matchHashOf v1 v2 v3 v4) })) ∧
    (∀ (q : MatchPage) (lh : Option String),
        (loadMatch q lh).league_hash = none ∨ (loadMatch q lh).timestamp = none ∨
        (loadMatch q lh).home_team = none ∨ (loadMatch q lh).away_team = none →
        parse_match q lh = ⟨[], some "KeyError"⟩) := by
  refine ⟨?_, parse_season_of_missing, ?_, parse_match_of_missing⟩
  · intro p c t s ht hs
    obtain ⟨rest, hev, _⟩ := parse_season_shape p c t s ht hs
    rw [hev]
    rfl
  · intro q lh v1 v2 v3 v4 h1 h2 h3 h4
    rw [parse_match_of_loaded q lh v1 v2 v3 v4 h1 h2 h3 h4]
    exact ⟨rfl, rfl⟩

theorem C4_witness :
    ((loadMatch matchPageA (some "abcdef123")).league_hash = some "abcdef123") ∧
    ((parse_match matchPageA (some "abcdef123")).error = none ∧
      (parse_match matchPageA (some "abcdef123")).events.head? =
        some (MatchEvent.matchItem
          { loadMatch matchPageA (some "abcdef123") with
              hash := some (matchHashOf "abcdef123" "1600000000" "Arsenal" "Chelsea") })) :=
  ⟨by decide,
   C4_hash_totality.2.2.1 matchPageA (some "abcdef123") "abcdef123" "1600000000" "Arsenal"
     "Chelsea" (by decide) (by decide) (by decide) (by decide)⟩

/-- Claim C5 counterexample: a season page whose matches link href is the
sentinel `#` but whose title and season queries match nothing makes the
parser raise before any yield, emitting zero League records and issuing
zero form-request continuations — not exactly one of each. -/
theorem C5_counterexample :
    matchesHref seasonPageC = some "#" ∧
    (parse_season seasonPageC none).events = [] ∧
    (parse_season seasonPageC none).error.isSome = true := by decide

/-- Claim C5, as amended: on a season page whose title and season fields
load successfully, whose matches link href is the sentinel `#`, and whose
anchor carries the three data attributes, the parser emits exactly one
League record (with `blocked` unset) and exactly one form POST to the AJAX
endpoint carrying exactly the form fields `hash`, `zzz` and `cur` read from
those data attributes — no direct follow. -/
theorem C5_sentinel_form_request (p : SeasonPage) (c : Option String) (t s dh dz dc : String)
    (a : Element)
    (ht : (loadLeague p c).title = some t) (hs : (loadLeague p c).season = some s)
    (hh : matchesHref p = some "#") (ha : p.matchesAnchors.head? = some a)
    (a1 : a.attr "data-hash" = some dh) (a2 : a.attr "data-zzz" = some dz)
    (a3 : a.attr "data-z" = some dc) :
    parse_season p c =
      ⟨[SeasonEvent.item { loadLeague p c with hash := some (leagueHashOf t s) },
        SeasonEvent.formRequest ajaxLeagueUrl [("hash", dh), ("zzz", dz), ("cur", dc)]
          (leagueHashOf t s)],
       none⟩ ∧
    ({ loadLeague p c with hash := some (leagueHashOf t s) } : League).blocked = none :=
  ⟨parse_season_of_sentinel p c t s dh dz dc a ht hs hh ha a1 a2 a3, rfl⟩

theorem C5_witness :
    matchesHref seasonPageA = some "#" ∧
    (parse_season seasonPageA (some "England") =
        ⟨[SeasonEvent.item
            { loadLeague seasonPageA (some "England") with
                hash := some (leagueHashOf "Premier League" "2020/2021") },
          SeasonEvent.formRequest ajaxLeagueUrl
            [("hash", "abc123"), ("zzz", "zz1"), ("cur", "cc1")]
            (leagueHashOf "Premier League" "2020/2021")],
         none⟩ ∧
      ({ loadLeague seasonPageA (some "England") with
          hash := some (leagueHashOf "Premier League" "2020/2021") } : League).blocked = none) :=
  ⟨by decide,
   C5_sentinel_form_request seasonPageA (some "England") "Premier League" "2020/2021"
     "abc123" "zz1" "cc1" ⟨[("href", "#"), ("data-hash", "abc123"), ("data-zzz", "zz1"),
       ("data-z", "cc1")]⟩
     (by decide) (by decide) (by decide) (by decide) (by decide) (by decide) (by decide)⟩

/-- Claim C6, as amended: when the four digest-input fields load, `parse_match`
emits exactly one Match record, and emits a PostMatchStatistics record —
tagged with the hash of the Match — if and only if the statistics panel query
matches something; with a digest-input field missing it raises and emits
nothing. -/
theorem C6_stats_iff_panel (q : MatchPage) (lh : Option String) (v1 v2 v3 v4 : String)
    (h1 : (loadMatch q lh).league_hash = some v1) (h2 : (loadMatch q lh).timestamp = some v2)
    (h3 : (loadMatch q lh).home_team = some v3) (h4 : (loadMatch q lh).away_team = some v4) :
    parse_match q lh =
      ⟨MatchEvent.matchItem { loadMatch q lh with hash := some (matchHashOf v1 v2 v3 v4) } ::
          (if q.query statsPanelXPath = [] then []
           else [MatchEvent.statsItem (loadStatistics q (matchHashOf v1 v2 v3 v4))]),
        none⟩ ∧
    ((∃ st, MatchEvent.statsItem st ∈ (parse_match q lh).events) ↔
      q.query statsPanelXPath ≠ []) ∧
    (loadStatistics q (matchHashOf v1 v2 v3 v4)).match_hash =
      some (matchHashOf v1 v2 v3 v4) := by
  have hEq := parse_match_of_loaded q lh v1 v2 v3 v4 h1 h2 h3 h4
  refine ⟨hEq, ?_, loadField_digest _⟩
  rw [hEq]
  by_cases hq : q.query statsPanelXPath = [] <;> simp [hq]

theorem C6_witness :
    ((loadMatch matchPageB (some "abcdef123")).timestamp = some "1600000000") ∧
    (parse_match matchPageB (some "abcdef123") =
        ⟨MatchEvent.matchItem
            { loadMatch matchPageB (some "abcdef123") with
                hash := some (matchHashOf "abcdef123" "1600000000" "Arsenal" "Chelsea") } ::
            (if matchPageB.query statsPanelXPath = [] then []
             else [MatchEvent.statsItem
               (loadStatistics matchPageB
                 (matchHashOf "abcdef123" "1600000000" "Arsenal" "Chelsea"))]),
          none⟩ ∧
      ((∃ st, MatchEvent.statsItem st ∈ (parse_match matchPageB (some "abcdef123")).events) ↔
        matchPageB.query statsPanelXPath ≠ []) ∧
      (loadStatistics matchPageB
          (matchHashOf "abcdef123" "1600000000" "Arsenal" "Chelsea")).match_hash =
        some (matchHashOf "abcdef123" "1600000000" "Arsenal" "Chelsea")) :=
  ⟨by decide,
   C6_stats_iff_panel matchPageB (some "abcdef123") "abcdef123" "1600000000" "Arsenal"
     "Chelsea" (by decide) (by decide) (by decide) (by decide)⟩

/-- Claim C6 counterexample: a match page on which the digest-input queries find
nothing (it also lacks the statistics panel) produces zero Match records and
an error, not exactly one Match record. -/
theorem C6_counterexample :
    (parse_match emptyMatchPage (some "abcdef123")).events = [] ∧
    (parse_match emptyMatchPage (some "abcdef123")).error.isSome = true := by decide

/-- Claim C7: a leagues index with two country groups of three league links each
yields no records, exactly six follow requests, each tagged with the id of
the group that contained its href. -/
theorem C7_leagues_fanout (c1 c2 u1 u2 u3 v1 v2 v3 : String) :
    parse_leagues [⟨[("id", c1)], [u1, u2, u3]⟩, ⟨[("id", c2)], [v1, v2, v3]⟩] =
      ⟨[⟨u1, c1⟩, ⟨u2, c1⟩, ⟨u3, c1⟩, ⟨v1, c2⟩, ⟨v2, c2⟩, ⟨v3, c2⟩], none⟩ := rfl

/-- Claim C8: the digest is value- and order-sensitive at the probe values
of the spec:
changing the season from 2020/2021 to 2021/2022 under the same title changes
the League hash, and swapping the two digest inputs changes the output. -/
theorem C8_hash_sensitivity :
    leagueHashOf "Premier League" "2020/2021" ≠ leagueHashOf "Premier League" "2021/2022" ∧
    fieldsDigest ["Premier League", "2020/2021"] ≠
      fieldsDigest ["2020/2021", "Premier League"] := by decide

/-- Claim C9: the season parser computes the League hash before issuing anything —
the League item heads the event list and every follow-up request (form POST
or direct follow) carries exactly that hash; the matches-list parser passes
the context through unchanged; and a Match record built with that context
stores it as its `league_hash`. -/
theorem C9_league_hash_threading (p : SeasonPage) (c : Option String) (t s : String)
    (ht : (loadLeague p c).title = some t) (hs : (loadLeague p c).season = some s) :
    (parse_season p c).events.head? =
      some (SeasonEvent.item { loadLeague p c with hash := some (leagueHashOf t s) }) ∧
    (∀ e ∈ (parse_season p c).events, ∀ url fd h,
        e = SeasonEvent.formRequest url fd h → h = leagueHashOf t s) ∧
    (∀ e ∈ (parse_season p c).events, ∀ url h,
        e = SeasonEvent.follow url h → h = leagueHashOf t s) ∧
    (∀ (mp : MatchesPage) (lh : Option String), ∀ r ∈ parse_matches mp lh,
        r.league_hash = lh) ∧
    (∀ (q : MatchPage) (m : Match),
        MatchEvent.matchItem m ∈ (parse_match q (some (leagueHashOf t s))).events →
        m.league_hash = some (leagueHashOf t s)) := by
  obtain ⟨rest, hev, hrest⟩ := parse_season_shape p c t s ht hs
  refine ⟨by rw [hev]; rfl, ?_, ?_, ?_, ?_⟩
  · intro e he url fd h heq
    rw [hev] at he
    rcases List.mem_cons.mp he with h0 | he2
    · rw [h0] at heq
      simp at heq
    · rcases hrest _ he2 with hcase | ⟨fd2, hcase⟩ | ⟨u2, hcase⟩
      · rw [hcase] at heq
        simp at heq
      · obtain ⟨_, _, h3⟩ := SeasonEvent.formRequest.inj (heq.symm.trans hcase)
        exact h3
      · exact absurd (heq.symm.trans hcase) (by simp)
  · intro e he url h heq
    rw [hev] at he
    rcases List.mem_cons.mp he with h0 | he2
    · rw [h0] at heq
      simp at heq
    · rcases hrest _ he2 with hcase | ⟨fd2, hcase⟩ | ⟨u2, hcase⟩
      · rw [hcase] at heq
        simp at heq
      · exact absurd (heq.symm.trans hcase) (by simp)
      · obtain ⟨_, h3⟩ := SeasonEvent.follow.inj (heq.symm.trans hcase)
        exact h3
  · intro mp lh r hr
    rcases List.mem_map.mp hr with ⟨u, _, rfl⟩
    rfl
  · intro q m hmem
    have hlf : (loadMatch q (some (leagueHashOf t s))).league_hash =
        some (leagueHashOf t s) := loadField_digest _
    rcases h2 : (loadMatch q (some (leagueHashOf t s))).timestamp with _ | v2
    · rw [parse_match_of_missing _ _ (Or.inr (Or.inl h2))] at hmem
      simp at hmem
    rcases h3 : (loadMatch q (some (leagueHashOf t s))).home_team with _ | v3
    · rw [parse_match_of_missing _ _ (Or.inr (Or.inr (Or.inl h3)))] at hmem
      simp at hmem
    rcases h4 : (loadMatch q (some (leagueHashOf t s))).away_team with _ | v4
    · rw [parse_match_of_missing _ _ (Or.inr (Or.inr (Or.inr h4)))] at hmem
      simp at hmem
    rw [parse_match_of_loaded _ _ _ v2 v3 v4 hlf h2 h3 h4] at hmem
    rcases List.mem_cons.mp hmem with heq | hmem2
    · injection heq with h
      subst h
      exact hlf
    · by_cases hq : q.query statsPanelXPath = [] <;> simp [hq] at hmem2

theorem C9_witness :
    ((loadLeague seasonPageA (some "England")).title = some "Premier League") ∧
    ((parse_season seasonPageA (some "England")).events.head? =
        some (SeasonEvent.item
          { loadLeague seasonPageA (some "England") with
              hash := some (leagueHashOf "Premier League" "2020/2021") }) ∧
      (∀ e ∈ (parse_season seasonPageA (some "England")).events, ∀ url fd h,
          e = SeasonEvent.formRequest url fd h →
          h = leagueHashOf "Premier League" "2020/2021") ∧
      (∀ e ∈ (parse_season seasonPageA (some "England")).events, ∀ url h,
          e = SeasonEvent.follow url h → h = leagueHashOf "Premier League" "2020/2021") ∧
      (∀ (mp : MatchesPage) (lh : Option String), ∀ r ∈ parse_matches mp lh,
          r.league_hash = lh) ∧
      (∀ (q : MatchPage) (m : Match),
          MatchEvent.matchItem m ∈
            (parse_match q (some (leagueHashOf "Premier League" "2020/2021"))).events →
          m.league_hash = some (leagueHashOf "Premier League" "2020/2021"))) :=
  ⟨by decide,
   C9_league_hash_threading seasonPageA (some "England") "Premier League" "2020/2021"
     (by decide) (by decide)⟩

/-- Claim C10, implicit: `home_result` and `away_result` are extracted by the
character-identical XPath expression, so the raw values feeding the two score
fields agree on every page and every emitted Match has equal score fields. -/
theorem C10_score_fields_identical :
    (∀ (q : MatchPage), q.query homeResultXPath = q.query awayResultXPath) ∧
    (∀ (q : MatchPage) (lh : Option String) (m : Match),
        MatchEvent.matchItem m ∈ (parse_match q lh).events →
        m.home_result = m.away_result) := by
  refine ⟨fun q => rfl, ?_⟩
  intro q lh m hmem
  rcases h1 : (loadMatch q lh).league_hash with _ | v1
  · rw [parse_match_of_missing q lh (Or.inl h1)] at hmem
    simp at hmem
  rcases h2 : (loadMatch q lh).timestamp with _ | v2
  · rw [parse_match_of_missing q lh (Or.inr (Or.inl h2))] at hmem
    simp at hmem
  rcases h3 : (loadMatch q lh).home_team with _ | v3
  · rw [parse_match_of_missing q lh (Or.inr (Or.inr (Or.inl h3)))] at hmem
    simp at hmem
  rcases h4 : (loadMatch q lh).away_team with _ | v4
  · rw [parse_match_of_missing q lh (Or.inr (Or.inr (Or.inr h4)))] at hmem
    simp at hmem
  rw [parse_match_of_loaded q lh v1 v2 v3 v4 h1 h2 h3 h4] at hmem
  rcases List.mem_cons.mp hmem with heq | hmem2
  · injection heq with h
    subst h
    rfl
  · by_cases hq : q.query statsPanelXPath = [] <;> simp [hq] at hmem2

theorem C10_witness :
    MatchEvent.matchItem matchA ∈ (parse_match matchPageA (some "abcdef123")).events ∧
    matchA.home_result = matchA.away_result :=
  ⟨by decide,
   C10_score_fields_identical.2 matchPageA (some "abcdef123") matchA (by decide)⟩

end SoccerStats
